import Mathlib

/-!
# Verification of the movai-gz-sensors core

Shallow embedding of the sensor-registry / noise-model core of the
`movai-gz-sensors` repository (a gz-sensors fork).  Sources embedded:

* `src/src/RgbdCameraSensor.cc` — `RgbdCameraSensor::Load` / `Update`
  (embedded directly from the source).
* `src/include/gz/sensors/Manager.hh` — the `Manager` registry/scheduler
  interface; its implementation file is not part of the excerpt, so the
  registry is modelled from the specification (§4.5 of the design document).
* `src/src/Noise_TEST.cc` — the unit tests of the noise framework; the
  `Noise.cc` / `GaussianNoiseModel.cc` implementation files are not part of
  the excerpt, so the noise models are modelled from the specification
  (§4.1–4.2), with every behaviour the in-repo test pins down followed
  exactly (variant tags, quantization values, custom callback, diagnostics).

Real measurement values are modelled by `ℚ` (exact rationals); the normal
random draws of the Gaussian models are modelled by explicit standard-draw
parameters `u` fed to the sampling formula `mean + stdDev * u`, so that the
degenerate `stdDev = 0` case is exact, as the specification requires.
-/

/-- Round half away from zero, the semantics of C `std::round`:
`round(2.5) = 3`, `round(-2.5) = -3`. -/
def roundHalfAwayFromZero (q : ℚ) : ℤ :=
  if 0 ≤ q then ⌊q + 1/2⌋ else ⌈q - 1/2⌉

/-- Modelled from the spec: the noise variant tag (`NoiseType` in
`gz/sensors/Noise.hh`, not under `src/`).  The integer value of `CUSTOM`
is pinned to `1` by `NoiseTest.NoiseFailures` in `src/src/Noise_TEST.cc`
(the expected `Print` output is `"Noise with type[1] ..."`). -/
inductive NoiseType
  | NONE
  | CUSTOM
  | GAUSSIAN
  deriving DecidableEq, Repr

/-- The integer value of a variant tag (the order of the enumerators
gives `NONE = 0`, `CUSTOM = 1`, `GAUSSIAN = 2`; `CUSTOM = 1` is the value
the in-repo test observes). -/
def NoiseType.toInt : NoiseType → ℤ
  | .NONE => 0
  | .CUSTOM => 1
  | .GAUSSIAN => 2

/-- Modelled from the spec: the state of a Gaussian noise model
(`GaussianNoiseModel` of `gz/sensors/GaussianNoiseModel.hh`, implementation
not under `src/`).  `bias` is the one-time construction draw; `quantized`
records whether the model was built from a `gaussian_quantized`
descriptor. -/
structure GaussianNoiseModel where
  mean : ℚ
  stdDev : ℚ
  bias : ℚ
  precision : ℚ
  quantized : Bool
  deriving DecidableEq, Repr

/-- Modelled from the spec (§4.1): the Gaussian `ApplyImpl`.  `u` is the
standard-normal draw of this call, so the sampled white noise is
`mean + stdDev * u` (exactly `mean` when `stdDev = 0`).  The corrupted
value is `x + sample + bias`; a quantized model with `precision > 0`
then rounds to the nearest multiple of `precision`, half away from
zero. -/
def GaussianNoiseModel.applyImpl (g : GaussianNoiseModel) (u x : ℚ) : ℚ :=
  let output := x + (g.mean + g.stdDev * u) + g.bias
  if g.quantized ∧ 0 < g.precision then
    (roundHalfAwayFromZero (output / g.precision) : ℚ) * g.precision
  else
    output

/-- Modelled from the spec: a noise model.  The `custom` variant carries the
optionally installed callback `(value, dt) → value`. -/
inductive NoiseModel
  | noneModel
  | custom (callback : Option (ℚ → ℚ → ℚ))
  | gaussian (g : GaussianNoiseModel)

/-- The variant tag of a model (`Noise::Type()`). -/
def NoiseModel.type : NoiseModel → NoiseType
  | .noneModel => .NONE
  | .custom _ => .CUSTOM
  | .gaussian _ => .GAUSSIAN

/-- Modelled from the spec: `Noise::SetCustomNoiseCallback` installs the
callback consulted by the `CUSTOM` variant. -/
def NoiseModel.setCustomNoiseCallback (n : NoiseModel) (f : ℚ → ℚ → ℚ) :
    NoiseModel :=
  match n with
  | .custom _ => .custom (Option.some f)
  | other => other

/-- Modelled from the spec (§4.1): `Noise::Apply(x, dt)`.  `u` is the
standard-normal draw consumed by a Gaussian model on this call (unused by
the other variants).  `NONE` is the identity; `CUSTOM` applies the
installed callback and is a pass-through when none is installed
(`NoiseTest.NoiseFailures` pins `Apply(9, 0.1) = 9` in that case). -/
def NoiseModel.apply (n : NoiseModel) (u x dt : ℚ) : ℚ :=
  match n with
  | .noneModel => x
  | .custom cb =>
    match cb with
    | Option.some f => f x dt
    | Option.none => x
  | .gaussian g => g.applyImpl u x

/-- Modelled from the spec (§6): the noise descriptor type discriminator
(`sdf::NoiseType`).  `other` stands for any unrecognized code (the test
uses code 99). -/
inductive SdfNoiseType
  | none_t
  | gaussian_t
  | gaussian_quantized_t
  | other (code : ℤ)
  deriving DecidableEq, Repr

/-- Modelled from the spec (§6): the declarative noise descriptor consumed
by the factory. -/
structure NoiseDescriptor where
  type : SdfNoiseType
  mean : ℚ
  stddev : ℚ
  biasMean : ℚ
  biasStddev : ℚ
  precision : ℚ

/-- Modelled from the spec (§4.2): `NoiseFactory::NewNoiseModel`
(`Noise.cc` is not under `src/`).  `u0` is the standard-normal draw used
for the one-time bias (`bias = biasMean + biasStddev * u0`, exactly
`biasMean` when `biasStddev = 0`).  Where the in-repo test
`NoiseTest.Types` pins the behaviour it is followed: a
`gaussian_quantized` descriptor produces a model whose `Type()` is
`GAUSSIAN` (the quantization is carried by the `quantized` flag of the
same Gaussian model, not by a separate variant tag), and the `precision`
field is preserved.  An unrecognized type code yields no model (spec §9
leaves this path unspecified; the source was observed returning a
null/default model). -/
def NoiseFactory.NewNoiseModel (d : NoiseDescriptor) (u0 : ℚ) :
    Option NoiseModel :=
  match d.type with
  | .none_t => Option.some NoiseModel.noneModel
  | .gaussian_t =>
    Option.some (NoiseModel.gaussian
      { mean := d.mean, stdDev := d.stddev,
        bias := d.biasMean + d.biasStddev * u0,
        precision := d.precision, quantized := false })
  | .gaussian_quantized_t =>
    Option.some (NoiseModel.gaussian
      { mean := d.mean, stdDev := d.stddev,
        bias := d.biasMean + d.biasStddev * u0,
        precision := d.precision, quantized := true })
  | .other _ => Option.none

/-- Modelled from the spec (§4.1): the diagnostic message emitted by the
base `Noise::Print` implementation, with the integer variant tag spliced
in.  The exact text for tag 1 is pinned by `NoiseTest.NoiseFailures`. -/
def basePrintMessage (n : ℤ) : String :=
  "Noise with type[" ++ toString n ++
    "] does not have an overloaded Print function. " ++
    "No more information is available."

/-- Whether a variant has a specialized `Print` override (spec §4.1: each
concrete variant may override the base message; the Gaussian model does,
the base `Noise` used for `NONE` and `CUSTOM` does not). -/
def NoiseModel.hasPrintOverride : NoiseModel → Bool
  | .gaussian _ => true
  | _ => false

/-- Modelled from the spec (§4.1): the text written by `Print(sink)` for a
variant without an override; the overridden Gaussian text is
parameter-specific detail outside the modelled core, so it is left
unspecified (`Option.none`). -/
def NoiseModel.printOutput (n : NoiseModel) : Option String :=
  if n.hasPrintOverride then Option.none
  else Option.some (basePrintMessage n.type.toInt)

/-- The sensor-kind discriminator of a sensor descriptor
(`sdf::SensorType`, consumed by `RgbdCameraSensor::Load`).  Only the
equality test against `RGBD_CAMERA` matters to the embedded code; every
other kind is represented through its code. -/
inductive SdfSensorType
  | RGBD_CAMERA
  | CAMERA
  | OTHER (code : ℤ)
  deriving DecidableEq, Repr

/-- The mutable private state of an `RgbdCameraSensor` that the embedded
member functions read or write (`RgbdCameraSensorPrivate`,
`src/src/RgbdCameraSensor.cc` lines 36–108): the `initialized` flag, the
depth-camera pointer (modelled by its non-nullness) and the point-cloud
buffer pointer (filled asynchronously by `OnNewRgbPointCloud`, modelled
by its non-nullness). -/
structure RgbdState where
  initialized : Bool
  depthCameraPresent : Bool
  pointCloudBufferPresent : Bool
  deriving DecidableEq, Repr

/-- The construction-time state: all flags false (`initialized = false`,
null `depthCamera`, null `pointCloudBuffer`). -/
def RgbdState.fresh : RgbdState :=
  { initialized := false, depthCameraPresent := false,
    pointCloudBufferPresent := false }

/-- The outcomes of the external collaborators consulted by
`RgbdCameraSensor::Load`: the base-class `Sensor::Load` result, the
descriptor's kind discriminator, whether `_sdf.CameraSensor()` is
non-null, the truthiness of the three `Advertise` results, the
`AdvertiseInfo` result, and whether `Scene()` is non-null. -/
structure RgbdLoadEnv where
  baseLoadOk : Bool
  sdfType : SdfSensorType
  cameraSdfPresent : Bool
  imageAdvertiseOk : Bool
  depthAdvertiseOk : Bool
  pointAdvertiseOk : Bool
  infoAdvertiseOk : Bool
  scenePresent : Bool
  deriving DecidableEq, Repr

/-- Embedding of `RgbdCameraSensor::Load` (`src/src/RgbdCameraSensor.cc` lines
137–207), embedded step by step:

1. `Sensor::Load(_sdf)` fails → return false.
2. `_sdf.Type() != RGBD_CAMERA` → only `ignerr` logging, no return (the
   branch at lines 146–151 has no `return false`, unlike the next one).
3. `_sdf.CameraSensor() == nullptr` → return false.
4. each of the three publisher advertisements failing → return false.
5. `AdvertiseInfo` failing → return false.
6. if `Scene()` is non-null, `CreateCameras()` is called and its result
   is discarded (line 195–198); the depth camera it creates (line 225,
   before any of its own failure checks) becomes non-null.
7. `initialized = true` (line 204) and return true.

The result is the returned boolean together with the state after the
call; every failing path leaves the state unchanged. -/
def RgbdCameraSensor.Load (st : RgbdState) (env : RgbdLoadEnv) :
    Bool × RgbdState :=
  if env.baseLoadOk = false then (false, st)
  else if env.cameraSdfPresent = false then (false, st)
  else if env.imageAdvertiseOk = false then (false, st)
  else if env.depthAdvertiseOk = false then (false, st)
  else if env.pointAdvertiseOk = false then (false, st)
  else if env.infoAdvertiseOk = false then (false, st)
  else
    (true,
      { st with
        initialized := true,
        depthCameraPresent := st.depthCameraPresent || env.scenePresent })

/-- The external observations consulted by `RgbdCameraSensor::Update`:
whether each publisher currently has connections. -/
structure RgbdUpdateEnv where
  depthHasConnections : Bool
  pointHasConnections : Bool
  imageHasConnections : Bool
  deriving DecidableEq, Repr

/-- One message published during `RgbdCameraSensor::Update`. -/
inductive RgbdPub
  | depthImage
  | pointCloud
  | rgbImage
  | cameraInfo
  deriving DecidableEq, Repr

/-- Embedding of `RgbdCameraSensor::Update` (`src/src/RgbdCameraSensor.cc` lines
349–475), embedded step by step:

1. `initialized` false → return false, nothing produced or published
   (lines 352–356).
2. `depthCamera` null → return false, nothing produced or published
   (lines 358–362).
3. otherwise render, then publish: the depth image if `depthPub` has
   connections; if the point-cloud buffer is non-null, the point cloud
   if `pointPub` has connections and the RGB image if `imagePub` has
   connections; and always the camera-info message (line 472); return
   true. -/
def RgbdCameraSensor.Update (st : RgbdState) (env : RgbdUpdateEnv) :
    Bool × List RgbdPub :=
  if st.initialized = false then (false, [])
  else if st.depthCameraPresent = false then (false, [])
  else
    (true,
      (if env.depthHasConnections then [RgbdPub.depthImage] else [])
      ++ (if st.pointCloudBufferPresent then
            (if env.pointHasConnections then [RgbdPub.pointCloud] else [])
            ++ (if env.imageHasConnections then [RgbdPub.rgbImage] else [])
          else [])
      ++ [RgbdPub.cameraInfo])

/-- The `NO_SENSOR` sentinel that `AddSensor` returns on failure.  The
sentinel is modelled as the `Option.none` of the result type, so a
successfully issued id can never collide with it. -/
def NO_SENSOR : Option ℕ := Option.none

/-- Modelled from the spec (§3): the per-sensor attributes the Manager's
scheduler reads and writes — the update rate in Hz, the timestamp of the
most recent successful update, and the outcome of the sensor's own
`Update(t)` call (an abstract function of the time, since concrete
sensors are external collaborators). -/
structure MSensor where
  updateRate : ℚ
  lastUpdateTime : ℚ
  updateOk : ℚ → Bool

/-- Modelled from the spec (§4.5): the Manager's registry state — the
next unused id and the registered sensors keyed by id
(`Manager.hh` declares the interface; `Manager.cc` is not under
`src/`). -/
structure Manager where
  nextId : ℕ
  sensors : List (ℕ × MSensor)

/-- A freshly constructed Manager: no sensors, no id issued yet. -/
def Manager.init : Manager := { nextId := 0, sensors := [] }

/-- Modelled from the spec (§4.5): `Manager::AddSensor` rejects a null
sensor with `NO_SENSOR`; otherwise it assigns the next unused id, stores
the sensor under it and returns the id. -/
def Manager.AddSensor (m : Manager) (s : Option MSensor) :
    Option ℕ × Manager :=
  match s with
  | Option.none => (NO_SENSOR, m)
  | Option.some snew =>
    (Option.some m.nextId,
     { nextId := m.nextId + 1, sensors := m.sensors ++ [(m.nextId, snew)] })

/-- Modelled from the spec (§4.5): `Manager::Remove` erases the entry and
returns true when the id is registered, and is a no-op returning false
otherwise.  The id counter is not rolled back, so a removed id is never
reissued. -/
def Manager.Remove (m : Manager) (sid : ℕ) : Bool × Manager :=
  if m.sensors.any (fun p => p.1 == sid) then
    (true, { nextId := m.nextId,
             sensors := m.sensors.filter (fun p => p.1 != sid) })
  else
    (false, m)

/-- Modelled from the spec (§4.5): the due test of `Manager::RunOnce` for
one sensor — update when forced, when `updateRate <= 0`
(as-fast-as-possible), or when `currentSimTime - lastUpdateTime >=
1/updateRate`. -/
def sensorDue (t : ℚ) (force : Bool) (s : MSensor) : Bool :=
  force || decide (s.updateRate ≤ 0)
    || decide (1 / s.updateRate ≤ t - s.lastUpdateTime)

/-- Modelled from the spec (§4.5): `Manager::RunOnce(t, force)`.  Every
registered sensor judged due has its `Update(t)` invoked; on a successful
`Update` its `lastUpdateTime` becomes `t`, on a failed one it is left
unchanged.  The result is the new registry state together with the ids
whose `Update` was invoked during this call. -/
def Manager.RunOnce (m : Manager) (t : ℚ) (force : Bool) :
    Manager × List ℕ :=
  ({ nextId := m.nextId,
     sensors := m.sensors.map (fun p =>
       if sensorDue t force p.2 then
         (p.1, if p.2.updateOk t then
                 { p.2 with lastUpdateTime := t }
               else p.2)
       else p) },
   (m.sensors.filter (fun p => sensorDue t force p.2)).map Prod.fst)

/-- An operation of a Manager call sequence: an `AddSensor` call (with a
possibly null sensor) or a `Remove` call. -/
inductive MOp
  | add (s : Option MSensor)
  | rem (sid : ℕ)

/-- The registry state after a sequence of `AddSensor` / `Remove`
calls. -/
def Manager.applyOp (m : Manager) : MOp → Manager
  | .add s => (m.AddSensor s).2
  | .rem sid => (m.Remove sid).2

/-- The registry state after a whole call sequence. -/
def Manager.applyOps (m : Manager) : List MOp → Manager
  | [] => m
  | op :: ops => (m.applyOp op).applyOps ops

/-- The values returned by the `AddSensor` calls of a sequence, in call
order. -/
def Manager.addResults (m : Manager) : List MOp → List (Option ℕ)
  | [] => []
  | .add s :: ops => (m.AddSensor s).1 :: ((m.applyOp (.add s)).addResults ops)
  | .rem sid :: ops => (m.applyOp (.rem sid)).addResults ops

/-- The ids returned by the successful `AddSensor` calls of a sequence,
in call order. -/
def successIds (m : Manager) (ops : List MOp) : List ℕ :=
  (m.addResults ops).filterMap (fun r => r)

/-- The load environment of the C1 failing input: a descriptor whose
kind is `CAMERA` (not `RGBD_CAMERA`) with every sub-resource
available. -/
def mismatchLoadEnv : RgbdLoadEnv :=
  { baseLoadOk := true, sdfType := SdfSensorType.CAMERA,
    cameraSdfPresent := true, imageAdvertiseOk := true,
    depthAdvertiseOk := true, pointAdvertiseOk := true,
    infoAdvertiseOk := true, scenePresent := true }

/-- The registry invariant: every registered id is below the next unused
id. -/
def MgrInv (m : Manager) : Prop :=
  ∀ p ∈ m.sensors, p.1 < m.nextId

/-- A concrete sensor used by the Manager witnesses: 2 Hz, last updated
at time 0, `Update` always succeeds. -/
def wSensorA : MSensor :=
  { updateRate := 2, lastUpdateTime := 0, updateOk := fun _ => true }

/-- A concrete as-fast-as-possible sensor used by the Manager witnesses:
rate 0. -/
def wSensorB : MSensor :=
  { updateRate := 0, lastUpdateTime := 0, updateOk := fun _ => true }

/-- A concrete two-sensor registry used by the RunOnce witness. -/
def wManager : Manager :=
  { nextId := 2, sensors := [(0, wSensorA), (1, wSensorB)] }

/-- C7: a Custom-variant model applies an installed callback
(`Apply(x, dt) = f(x, dt)`, whatever was installed before), behaves as
the identity when no callback is installed, and installing
`f(x, _) = 2x` yields `Apply(i) = 2i` for `i = 0..99`. -/
theorem custom_noise_callback_semantics :
    (∀ (cb0 : Option (ℚ → ℚ → ℚ)) (f : ℚ → ℚ → ℚ) (u x dt : ℚ),
      ((NoiseModel.custom cb0).setCustomNoiseCallback f).apply u x dt
        = f x dt)
    ∧ (∀ (u x dt : ℚ), (NoiseModel.custom Option.none).apply u x dt = x)
    ∧ (∀ i : Fin 100,
        ((NoiseModel.custom Option.none).setCustomNoiseCallback
            (fun x _ => 2 * x)).apply 0 ((i : ℕ) : ℚ) 0
          = 2 * ((i : ℕ) : ℚ)) :=
  ⟨fun _ _ _ _ _ => rfl, fun _ _ _ => rfl, fun _ => rfl⟩

/-- C9: every noise variant without a specialized `Print` override writes
exactly the base diagnostic with the integer value of its variant tag
spliced in, and for the Custom variant (tag value 1) the text is exactly
the one the in-repo test expects. -/
theorem noise_print_base_message :
    (∀ n : NoiseModel, n.hasPrintOverride = false →
      n.printOutput = Option.some (basePrintMessage n.type.toInt))
    ∧ (NoiseModel.custom Option.none).printOutput
        = Option.some ("Noise with type[1] does not have an overloaded " ++
            "Print function. No more information is available.") := by
  constructor
  · intro n h
    simp [NoiseModel.printOutput, h]
  · rfl

/-- C9 witness: the general statement applied to the concrete Custom
model. -/
theorem noise_print_base_message_witness :
    (NoiseModel.custom Option.none).printOutput
      = Option.some
          (basePrintMessage (NoiseModel.custom Option.none).type.toInt) :=
  noise_print_base_message.1 (NoiseModel.custom Option.none) rfl

/-- C6: a Gaussian model constructed with `stddev = 0` and
`biasStddev = 0` applies exactly `x ↦ x + mean + biasMean` (so within
any `1e-6` tolerance), and the result does not depend on the per-call
random draw. -/
theorem gaussian_zero_variance_exact
    (mean biasMean prec x dt u0 u u' : ℚ) (mdl : NoiseModel)
    (h : NoiseFactory.NewNoiseModel
        { type := SdfNoiseType.gaussian_t, mean := mean, stddev := 0,
          biasMean := biasMean, biasStddev := 0, precision := prec } u0
        = Option.some mdl) :
    |mdl.apply u x dt - (x + mean + biasMean)| ≤ 1/1000000
      ∧ mdl.apply u x dt = mdl.apply u' x dt := by
  have hm : mdl = NoiseModel.gaussian
      { mean := mean, stdDev := 0, bias := biasMean + 0 * u0,
        precision := prec, quantized := false } := by
    simpa [NoiseFactory.NewNoiseModel] using h.symm
  subst hm
  constructor
  · have : (NoiseModel.gaussian
        { mean := mean, stdDev := 0, bias := biasMean + 0 * u0,
          precision := prec, quantized := false }).apply u x dt
        - (x + mean + biasMean) = 0 := by
      simp [NoiseModel.apply, GaussianNoiseModel.applyImpl]
    rw [this]
    norm_num
  · simp [NoiseModel.apply, GaussianNoiseModel.applyImpl]

/-- C6 witness: the zero-variance statement at
`mean = 10, biasMean = 100, x = 42` with two distinct per-call draws. -/
theorem gaussian_zero_variance_exact_witness :
    |(NoiseModel.gaussian
        { mean := 10, stdDev := 0, bias := 100 + 0 * 0, precision := 0,
          quantized := false }).apply 3 42 0 - (42 + 10 + 100)| ≤ 1/1000000
    ∧ (NoiseModel.gaussian
        { mean := 10, stdDev := 0, bias := 100 + 0 * 0, precision := 0,
          quantized := false }).apply 3 42 0
      = (NoiseModel.gaussian
          { mean := 10, stdDev := 0, bias := 100 + 0 * 0, precision := 0,
            quantized := false }).apply 7 42 0 :=
  gaussian_zero_variance_exact 10 100 0 42 0 0 3 7 _ rfl

/-- C5: a quantized Gaussian model with `precision > 0` applies
`round(g / precision) * precision` (half away from zero) to the
Gaussian-corrupted value `g`; with `precision ≤ 0` it behaves exactly
like the unquantized Gaussian; and with
`precision = 0.3, stddev = 0, mean = 0, biasMean = 0, biasStddev = 0`
the test values quantize to `0.3` and `-12.9` within `1e-6`. -/
theorem gaussian_quantized_apply_semantics :
    (∀ (g : GaussianNoiseModel) (u x : ℚ), g.quantized = true →
        0 < g.precision →
        g.applyImpl u x
          = (roundHalfAwayFromZero
              ((x + (g.mean + g.stdDev * u) + g.bias) / g.precision) : ℚ)
            * g.precision)
    ∧ (∀ (g : GaussianNoiseModel) (u x : ℚ), g.precision ≤ 0 →
        g.applyImpl u x = { g with quantized := false }.applyImpl u x)
    ∧ (∀ mdl : NoiseModel,
        NoiseFactory.NewNoiseModel
          { type := SdfNoiseType.gaussian_quantized_t, mean := 0,
            stddev := 0, biasMean := 0, biasStddev := 0,
            precision := 3/10 } 0
          = Option.some mdl →
        |mdl.apply 0 (32/100) 0 - 3/10| ≤ 1/1000000
        ∧ |mdl.apply 0 (28/100) 0 - 3/10| ≤ 1/1000000
        ∧ |mdl.apply 0 (-1292/100) 0 - (-129/10)| ≤ 1/1000000
        ∧ |mdl.apply 0 (-1288/100) 0 - (-129/10)| ≤ 1/1000000) := by
  refine ⟨?_, ?_, ?_⟩
  · intro g u x hq hp
    simp [GaussianNoiseModel.applyImpl, hq, hp]
  · intro g u x hp
    simp [GaussianNoiseModel.applyImpl, not_lt.2 hp]
  · intro mdl h
    have hm : mdl = NoiseModel.gaussian
        { mean := 0, stdDev := 0, bias := 0 + 0 * 0, precision := 3/10,
          quantized := true } := by
      simpa [NoiseFactory.NewNoiseModel] using h.symm
    subst hm
    have hc1 : (⌈(-(1307/30) : ℚ)⌉ : ℤ) = -43 := by
      norm_num [Int.ceil_eq_iff]
    have hc2 : (⌈(-(1303/30) : ℚ)⌉ : ℤ) = -43 := by
      norm_num [Int.ceil_eq_iff]
    refine ⟨?_, ?_, ?_, ?_⟩ <;>
      norm_num [NoiseModel.apply, GaussianNoiseModel.applyImpl,
        roundHalfAwayFromZero, hc1, hc2]

/-- C5 witness: the quantization formula and the concrete value `0.32 →
0.3` at the test's model. -/
theorem gaussian_quantized_apply_semantics_witness :
    (({ mean := 0, stdDev := 0, bias := 0 + 0 * 0, precision := 3/10,
        quantized := true } : GaussianNoiseModel).applyImpl 0 (32/100)
      = (roundHalfAwayFromZero
          (((32/100) + ((0 : ℚ) + 0 * 0) + (0 + 0 * 0)) / (3/10)) : ℚ)
        * (3/10))
    ∧ |(NoiseModel.gaussian
        { mean := 0, stdDev := 0, bias := 0 + 0 * 0, precision := 3/10,
          quantized := true }).apply 0 (32/100) 0 - 3/10| ≤ 1/1000000 :=
  ⟨gaussian_quantized_apply_semantics.1 _ 0 (32/100) rfl (by norm_num),
   (gaussian_quantized_apply_semantics.2.2 _ rfl).1⟩

/-- C2 counterexample: the model the factory builds from a
`gaussian_quantized` descriptor carries the variant tag `GAUSSIAN` — the
same tag a `gaussian` descriptor produces, not a distinct
GaussianQuantized tag (this is exactly what `NoiseTest.Types` asserts at
`src/src/Noise_TEST.cc:118-128`). -/
theorem gaussian_quantized_tag_counterexample :
    (NoiseFactory.NewNoiseModel
        { type := SdfNoiseType.gaussian_quantized_t, mean := 0, stddev := 0,
          biasMean := 0, biasStddev := 0, precision := 0 } 0).map
        NoiseModel.type
      = Option.some NoiseType.GAUSSIAN
    ∧ (NoiseFactory.NewNoiseModel
        { type := SdfNoiseType.gaussian_t, mean := 0, stddev := 0,
          biasMean := 0, biasStddev := 0, precision := 0 } 0).map
        NoiseModel.type
      = Option.some NoiseType.GAUSSIAN :=
  ⟨rfl, rfl⟩

/-- C2 (amended): every `gaussian_quantized` descriptor produces a
Gaussian-tagged model (`Type() = GAUSSIAN`, the same tag as `gaussian`)
with quantization enabled, and the descriptor's `precision` field is
preserved in the model. -/
theorem gaussian_quantized_tag_and_precision (d : NoiseDescriptor)
    (u0 : ℚ) (h : d.type = SdfNoiseType.gaussian_quantized_t) :
    ∃ g : GaussianNoiseModel,
      NoiseFactory.NewNoiseModel d u0
        = Option.some (NoiseModel.gaussian g)
      ∧ (NoiseModel.gaussian g).type = NoiseType.GAUSSIAN
      ∧ g.precision = d.precision
      ∧ g.quantized = true := by
  refine ⟨{ mean := d.mean, stdDev := d.stddev,
            bias := d.biasMean + d.biasStddev * u0,
            precision := d.precision, quantized := true },
          ?_, rfl, rfl, rfl⟩
  simp [NoiseFactory.NewNoiseModel, h]

/-- C2 witness: the amended statement at the test's descriptor
(`precision = 0.3`). -/
theorem gaussian_quantized_tag_and_precision_witness :
    ∃ g : GaussianNoiseModel,
      NoiseFactory.NewNoiseModel
          { type := SdfNoiseType.gaussian_quantized_t, mean := 0,
            stddev := 0, biasMean := 0, biasStddev := 0,
            precision := 3/10 } 0
        = Option.some (NoiseModel.gaussian g)
      ∧ (NoiseModel.gaussian g).type = NoiseType.GAUSSIAN
      ∧ g.precision
          = ({ type := SdfNoiseType.gaussian_quantized_t, mean := 0,
               stddev := 0, biasMean := 0, biasStddev := 0,
               precision := 3/10 } : NoiseDescriptor).precision
      ∧ g.quantized = true :=
  gaussian_quantized_tag_and_precision _ 0 rfl

/-- C1 (code evaluation at the failing input): `RgbdCameraSensor::Load`
given a descriptor whose kind is `CAMERA` — not `RGBD_CAMERA` — with all
sub-resources available does NOT return false: the mismatch branch at
`src/src/RgbdCameraSensor.cc:146-151` only logs and falls through, so
the call returns true and sets `initialized`, contradicting the claimed
`(false, initialized = false)` outcome. -/
theorem rgbd_load_kind_mismatch_eval :
    mismatchLoadEnv.sdfType = SdfSensorType.CAMERA
    ∧ RgbdCameraSensor.Load RgbdState.fresh mismatchLoadEnv
        = (true, { initialized := true, depthCameraPresent := true,
                   pointCloudBufferPresent := false }) :=
  ⟨rfl, rfl⟩

/-- C8: `RgbdCameraSensor::Update` called while `initialized` is still
false returns false and produces/publishes nothing, and likewise when
the depth-camera dependency is null. -/
theorem rgbd_update_requires_init (st : RgbdState) (env : RgbdUpdateEnv) :
    (st.initialized = false → RgbdCameraSensor.Update st env = (false, []))
    ∧ (st.depthCameraPresent = false →
        RgbdCameraSensor.Update st env = (false, [])) := by
  constructor
  · intro h
    simp [RgbdCameraSensor.Update, h]
  · intro h
    cases hi : st.initialized <;>
      simp [RgbdCameraSensor.Update, h, hi]

/-- C8 witness: an update on a freshly constructed (never loaded) sensor
with every publisher connected. -/
theorem rgbd_update_requires_init_witness :
    RgbdCameraSensor.Update RgbdState.fresh
        { depthHasConnections := true, pointHasConnections := true,
          imageHasConnections := true }
      = (false, []) :=
  (rgbd_update_requires_init RgbdState.fresh
    { depthHasConnections := true, pointHasConnections := true,
      imageHasConnections := true }).1 rfl

/-- C10: starting from `initialized = false`, `RgbdCameraSensor::Load`
returns true exactly when it sets `initialized` to true; every failing
path leaves the state (hence `initialized = false`) unchanged; and the
failing paths are exactly the base-class load failure, the null camera
sub-descriptor, the three publisher advertisements and the camera-info
advertisement (kind mismatch is not among them). -/
theorem rgbd_load_true_iff_initialized (st : RgbdState) (env : RgbdLoadEnv)
    (h : st.initialized = false) :
    ((RgbdCameraSensor.Load st env).1 = true
        ↔ (RgbdCameraSensor.Load st env).2.initialized = true)
    ∧ ((RgbdCameraSensor.Load st env).1 = false →
        (RgbdCameraSensor.Load st env).2 = st)
    ∧ ((RgbdCameraSensor.Load st env).1 = true
        ↔ env.baseLoadOk = true ∧ env.cameraSdfPresent = true
          ∧ env.imageAdvertiseOk = true ∧ env.depthAdvertiseOk = true
          ∧ env.pointAdvertiseOk = true ∧ env.infoAdvertiseOk = true) := by
  obtain ⟨b1, ty, b2, b3, b4, b5, b6, b7⟩ := env
  cases b1 <;> cases b2 <;> cases b3 <;> cases b4 <;> cases b5 <;>
    cases b6 <;> simp [RgbdCameraSensor.Load, h]

/-- C10 witness: a fully successful load from the freshly constructed
state. -/
theorem rgbd_load_true_iff_initialized_witness :
    ((RgbdCameraSensor.Load RgbdState.fresh
        { baseLoadOk := true, sdfType := SdfSensorType.RGBD_CAMERA,
          cameraSdfPresent := true, imageAdvertiseOk := true,
          depthAdvertiseOk := true, pointAdvertiseOk := true,
          infoAdvertiseOk := true, scenePresent := true }).1 = true
      ↔ (RgbdCameraSensor.Load RgbdState.fresh
          { baseLoadOk := true, sdfType := SdfSensorType.RGBD_CAMERA,
            cameraSdfPresent := true, imageAdvertiseOk := true,
            depthAdvertiseOk := true, pointAdvertiseOk := true,
            infoAdvertiseOk := true, scenePresent := true }).2.initialized
          = true) :=
  (rgbd_load_true_iff_initialized RgbdState.fresh
    { baseLoadOk := true, sdfType := SdfSensorType.RGBD_CAMERA,
      cameraSdfPresent := true, imageAdvertiseOk := true,
      depthAdvertiseOk := true, pointAdvertiseOk := true,
      infoAdvertiseOk := true, scenePresent := true } rfl).1

/-- Removing never changes the id counter. -/
theorem remove_nextId (m : Manager) (sid : ℕ) :
    (m.Remove sid).2.nextId = m.nextId := by
  unfold Manager.Remove
  split <;> rfl

/-- One registry operation never decreases the id counter. -/
theorem applyOp_nextId_le (m : Manager) (op : MOp) :
    m.nextId ≤ (m.applyOp op).nextId := by
  cases op with
  | add s =>
    cases s <;> simp [Manager.applyOp, Manager.AddSensor]
  | rem sid =>
    simp [Manager.applyOp, remove_nextId]

/-- A call sequence never decreases the id counter. -/
theorem applyOps_nextId_le (ops : List MOp) :
    ∀ m : Manager, m.nextId ≤ (m.applyOps ops).nextId := by
  induction ops with
  | nil => intro m; simp [Manager.applyOps]
  | cons op ops ih =>
    intro m
    calc m.nextId ≤ (m.applyOp op).nextId := applyOp_nextId_le m op
    _ ≤ ((m.applyOp op).applyOps ops).nextId := ih _

/-- Every id issued during a call sequence is at least the id counter at
the start of the sequence. -/
theorem mem_successIds_ge (ops : List MOp) :
    ∀ (m : Manager) (k : ℕ), k ∈ successIds m ops → m.nextId ≤ k := by
  induction ops with
  | nil =>
    intro m k hk
    simp [successIds, Manager.addResults] at hk
  | cons op ops ih =>
    intro m k hk
    cases op with
    | add s =>
      cases s with
      | none =>
        have : successIds m (MOp.add Option.none :: ops)
            = successIds m ops := by
          simp [successIds, Manager.addResults, Manager.applyOp,
            Manager.AddSensor, NO_SENSOR]
        rw [this] at hk
        exact ih m k hk
      | some snew =>
        have : successIds m (MOp.add (Option.some snew) :: ops)
            = m.nextId
              :: successIds (m.applyOp (MOp.add (Option.some snew))) ops := by
          simp [successIds, Manager.addResults, Manager.AddSensor]
        rw [this] at hk
        rcases List.mem_cons.1 hk with h | h
        · omega
        · have h2 := ih _ k h
          have h3 : (m.applyOp (MOp.add (Option.some snew))).nextId
              = m.nextId + 1 := rfl
          omega
    | rem sid =>
      have : successIds m (MOp.rem sid :: ops)
          = successIds (m.applyOp (MOp.rem sid)) ops := by
        simp [successIds, Manager.addResults]
      rw [this] at hk
      have h2 := ih _ k hk
      have h3 : m.nextId ≤ (m.applyOp (MOp.rem sid)).nextId :=
        applyOp_nextId_le m _
      omega

/-- The ids issued during a call sequence are strictly increasing. -/
theorem successIds_pairwise_lt (ops : List MOp) :
    ∀ m : Manager, (successIds m ops).Pairwise (· < ·) := by
  induction ops with
  | nil =>
    intro m
    simp [successIds, Manager.addResults]
  | cons op ops ih =>
    intro m
    cases op with
    | add s =>
      cases s with
      | none =>
        have : successIds m (MOp.add Option.none :: ops)
            = successIds m ops := by
          simp [successIds, Manager.addResults, Manager.applyOp,
            Manager.AddSensor, NO_SENSOR]
        rw [this]
        exact ih m
      | some snew =>
        have he : successIds m (MOp.add (Option.some snew) :: ops)
            = m.nextId
              :: successIds (m.applyOp (MOp.add (Option.some snew))) ops := by
          simp [successIds, Manager.addResults, Manager.AddSensor]
        rw [he, List.pairwise_cons]
        refine ⟨?_, ih _⟩
        intro b hb
        have h2 := mem_successIds_ge ops _ b hb
        have h3 : (m.applyOp (MOp.add (Option.some snew))).nextId
            = m.nextId + 1 := rfl
        omega
    | rem sid =>
      have : successIds m (MOp.rem sid :: ops)
          = successIds (m.applyOp (MOp.rem sid)) ops := by
        simp [successIds, Manager.addResults]
      rw [this]
      exact ih _

/-- The registry invariant holds for the fresh Manager. -/
theorem mgrInv_init : MgrInv Manager.init := by
  intro p hp
  simp [Manager.init] at hp

/-- The registry invariant is preserved by every operation. -/
theorem mgrInv_applyOp (m : Manager) (op : MOp) (h : MgrInv m) :
    MgrInv (m.applyOp op) := by
  cases op with
  | add s =>
    cases s with
    | none => exact h
    | some snew =>
      intro p hp
      simp [Manager.applyOp, Manager.AddSensor] at hp ⊢
      rcases hp with hp | hp
      · have := h p hp
        omega
      · rw [hp]
        omega
  | rem sid =>
    intro p hp
    simp only [Manager.applyOp, Manager.Remove] at hp ⊢
    split at hp
    · simp only at hp
      have hp2 := List.mem_of_mem_filter hp
      split
      · exact h p hp2
      · exact h p hp2
    · split
      · exact h p hp
      · exact h p hp

/-- The registry invariant is preserved by call sequences. -/
theorem mgrInv_applyOps (ops : List MOp) :
    ∀ m : Manager, MgrInv m → MgrInv (m.applyOps ops) := by
  induction ops with
  | nil => intro m h; exact h
  | cons op ops ih =>
    intro m h
    exact ih _ (mgrInv_applyOp m op h)

/-- A successful `Remove` targets a registered id, which under the
invariant is below the id counter. -/
theorem remove_true_lt (m : Manager) (sid : ℕ) (hInv : MgrInv m)
    (h : (m.Remove sid).1 = true) : sid < m.nextId := by
  unfold Manager.Remove at h
  split at h
  · rename_i hany
    rcases List.any_eq_true.1 hany with ⟨p, hp, he⟩
    have : p.1 = sid := by
      simpa using he
    have := hInv p hp
    omega
  · simp at h

/-- C4: over every sequence of `AddSensor` / `Remove` calls on a fresh
Manager, `AddSensor` returns `NO_SENSOR` when given a null sensor; the
ids returned by successful `AddSensor` calls are pairwise distinct and
none of them equals `NO_SENSOR`; and an id successfully removed by
`Remove` is never returned by any later `AddSensor` call. -/
theorem manager_id_discipline :
    (∀ m : Manager, (m.AddSensor Option.none).1 = NO_SENSOR)
    ∧ (∀ ops : List MOp,
        (successIds Manager.init ops).Nodup
        ∧ ∀ k ∈ successIds Manager.init ops, Option.some k ≠ NO_SENSOR)
    ∧ (∀ (ops₁ : List MOp) (sid : ℕ) (ops₂ : List MOp),
        ((Manager.init.applyOps ops₁).Remove sid).1 = true →
        sid ∉ successIds
          ((Manager.init.applyOps ops₁).Remove sid).2 ops₂) := by
  refine ⟨fun _ => rfl, fun ops => ⟨?_, ?_⟩, ?_⟩
  · exact (successIds_pairwise_lt ops Manager.init).imp
      (fun h => Nat.ne_of_lt h)
  · intro k _
    simp [NO_SENSOR]
  · intro ops₁ sid ops₂ hrem hmem
    have hInv := mgrInv_applyOps ops₁ Manager.init mgrInv_init
    have hlt := remove_true_lt _ sid hInv hrem
    have hge := mem_successIds_ge ops₂ _ sid hmem
    rw [remove_nextId] at hge
    omega

/-- C4 witness: add one sensor (id 0), remove it successfully, and the
recorded non-reuse guarantee applied to a subsequent add. -/
theorem manager_id_discipline_witness :
    ((Manager.init.applyOps [MOp.add (Option.some wSensorA)]).Remove 0).1
      = true
    ∧ 0 ∉ successIds
        ((Manager.init.applyOps [MOp.add (Option.some wSensorA)]).Remove 0).2
        [MOp.add (Option.some wSensorA)] :=
  ⟨rfl,
   manager_id_discipline.2.2 [MOp.add (Option.some wSensorA)] 0
     [MOp.add (Option.some wSensorA)] rfl⟩

/-- C3: with `force = false`, a registered sensor with positive update
rate has its `Update(t)` invoked by `RunOnce(t)` exactly when
`t - lastUpdateTime ≥ 1/updateRate`, and a registered sensor with
`updateRate ≤ 0` has it invoked on every call (registry ids assumed
distinct, as the Manager issues them). -/
theorem runOnce_rate_gating (m : Manager) (t : ℚ) (sid : ℕ) (s : MSensor)
    (hnd : (m.sensors.map Prod.fst).Nodup) (hmem : (sid, s) ∈ m.sensors) :
    (0 < s.updateRate →
      (sid ∈ (m.RunOnce t false).2
        ↔ 1 / s.updateRate ≤ t - s.lastUpdateTime))
    ∧ (s.updateRate ≤ 0 → sid ∈ (m.RunOnce t false).2) := by
  have key : sid ∈ (m.RunOnce t false).2 ↔ sensorDue t false s = true := by
    simp only [Manager.RunOnce, List.mem_map, List.mem_filter]
    constructor
    · rintro ⟨p, ⟨hp, hdue⟩, hfst⟩
      have hpe : p = (sid, s) :=
        List.inj_on_of_nodup_map hnd hp hmem (by simpa using hfst)
      rw [hpe] at hdue
      exact hdue
    · intro hdue
      exact ⟨(sid, s), ⟨hmem, hdue⟩, rfl⟩
  constructor
  · intro hr
    rw [key]
    have h1 : decide (s.updateRate ≤ 0) = false :=
      decide_eq_false (not_le.2 hr)
    simp [sensorDue, h1]
  · intro hr
    rw [key]
    simp [sensorDue, hr]

/-- C3 witness: in a registry holding a 2 Hz sensor (id 0, last updated
at time 0) and a rate-0 sensor (id 1), `RunOnce(1, force = false)`
invokes both updates, the former because `1 - 0 ≥ 1/2`. -/
theorem runOnce_rate_gating_witness :
    1 / wSensorA.updateRate ≤ (1 : ℚ) - wSensorA.lastUpdateTime
    ∧ 0 ∈ (wManager.RunOnce 1 false).2
    ∧ 1 ∈ (wManager.RunOnce 1 false).2 := by
  have h2 : (0 : ℚ) < wSensorA.updateRate := by norm_num [wSensorA]
  have h1 : 1 / wSensorA.updateRate ≤ (1 : ℚ) - wSensorA.lastUpdateTime := by
    norm_num [wSensorA]
  refine ⟨h1, ?_, ?_⟩
  · exact ((runOnce_rate_gating wManager 1 0 wSensorA (by decide)
      (by simp [wManager])).1 h2).mpr h1
  · exact (runOnce_rate_gating wManager 1 1 wSensorB (by decide)
      (by simp [wManager])).2 (by norm_num [wSensorB])
